import Mathlib

/-! Verification of the Sake Sensei recommendation engine
(`backend/lambdas/recommendation/algorithm.py` and the limit handling of
`backend/lambdas/recommendation/handler.py`).

Python dictionaries with optional numeric/string attributes are embedded as
structures with `Option` fields; `dict.get(k, d)` becomes `Option.getD`.
Python floats are modelled as exact rationals (`ℚ`), and `round(x, 2)` as
round-half-to-even at two decimal places, matching Python's documented
rounding mode.  The DynamoDB tables injected into `RecommendationEngine`
are modelled by their materialized contents (the list of records a
successful `scan`/`query` would return), so that the data flow from the
store into `recommend` stays visible.
-/

namespace SakeSensei

/-- A record of the sake master table.  The fields read with `sake["k"]`
(a `KeyError` if missing) are required; those read with `sake.get("k", d)`
are optional. -/
structure CatalogItem where
  sake_id : String
  name : String
  brewery_id : String
  category : String
  price : Option ℚ
  sweetness : Option ℚ
  acidity : Option ℚ
  richness : Option ℚ
  rating : Option ℚ
deriving DecidableEq, Repr

/-- The user preference dictionary.  Every field is read with
`preferences.get(...)`, hence optional; `categories` defaults to `[]` which
Python treats the same as an absent key. -/
structure Preferences where
  sweetness : Option ℚ
  acidity : Option ℚ
  richness : Option ℚ
  budget : Option ℚ
  categories : List String
  experience_level : Option String
deriving DecidableEq, Repr

/-- One tasting-history record; the engine reads both fields with
`record.get(...)`, so they are optional. -/
structure TastingRecord where
  sake_id : Option String
  brewery_id : Option String
deriving DecidableEq, Repr

/-- The output record built for each scored candidate (lines 71-84 of
`algorithm.py`). -/
structure ScoredCandidate where
  sake_id : String
  name : String
  brewery_id : String
  category : String
  price : ℚ
  sweetness : ℚ
  acidity : ℚ
  richness : ℚ
  score : ℚ
  match_reason : String
deriving DecidableEq, Repr

/-- The engine object.  The three injected DynamoDB tables are modelled by
their materialized contents; only `sake_table` is ever scanned by the
engine, the other two are stored but unused by `recommend`. -/
structure RecommendationEngine where
  sake_table : List CatalogItem
  brewery_table : List (String × String)
  tasting_table : List TastingRecord
deriving DecidableEq, Repr

/-- Round half to even, the rounding mode of Python's builtin `round`. -/
def roundHalfEven (q : ℚ) : ℤ :=
  let f := ⌊q⌋
  let r := q - f
  if r < 1 / 2 then f
  else if 1 / 2 < r then f + 1
  else if f % 2 = 0 then f else f + 1

/-- Python's `round(q, 2)`. -/
def round2 (q : ℚ) : ℚ := (roundHalfEven (q * 100) : ℚ) / 100

/-- Python's `lst[:limit]` for an arbitrary (possibly negative) integer
`limit`: a nonnegative limit keeps the first `limit` elements; a negative
limit drops the last `-limit` elements. -/
def pySliceTo (l : List α) (limit : ℤ) : List α :=
  if 0 ≤ limit then l.take limit.toNat
  else l.take (l.length - (-limit).toNat)

/-- `RecommendationEngine._get_all_sake`: scans the sake table and returns
its items (`[]` on a scan failure; a successful scan returns the table
contents). -/
def _get_all_sake (engine : RecommendationEngine) : List CatalogItem :=
  engine.sake_table

/-- Budget filtering step of `recommend` (lines 51-54): Python's
`if budget:` runs the filter only when `budget` is present and nonzero. -/
def filter_budget (budget : Option ℚ) (items : List CatalogItem) : List CatalogItem :=
  match budget with
  | none => items
  | some b => if b = 0 then items else items.filter (fun s => s.price.getD 0 ≤ b)

/-- Category filtering step of `recommend` (lines 56-59): applied only
when the preferred category list is nonempty. -/
def filter_categories (preferred : List String) (items : List CatalogItem) : List CatalogItem :=
  if preferred = [] then items
  else items.filter (fun s => s.category ∈ preferred)

/-- History filtering step of `recommend` (lines 61-63): drop items whose
`sake_id` appears among the history records' ids. -/
def filter_tasted (tasting_history : List TastingRecord)
    (items : List CatalogItem) : List CatalogItem :=
  items.filter (fun s => ¬ some s.sake_id ∈ tasting_history.map TastingRecord.sake_id)

/-- The candidate set scored by `recommend`: the catalog after the budget,
category and history filters (lines 49-63). -/
def candidate_sake (engine : RecommendationEngine) (preferences : Preferences)
    (tasting_history : List TastingRecord) : List CatalogItem :=
  filter_tasted tasting_history
    (filter_categories preferences.categories
      (filter_budget preferences.budget (_get_all_sake engine)))

/-- `RecommendationEngine._calculate_taste_match` (lines 138-173). -/
def _calculate_taste_match (sake : CatalogItem) (preferences : Preferences) : ℚ :=
  let pref_sweetness := preferences.sweetness.getD 3
  let pref_acidity := preferences.acidity.getD 3
  let pref_richness := preferences.richness.getD 3
  let sake_sweetness := sake.sweetness.getD 3
  let sake_acidity := sake.acidity.getD 3
  let sake_richness := sake.richness.getD 3
  let sweetness_diff := |pref_sweetness - sake_sweetness|
  let acidity_diff := |pref_acidity - sake_acidity|
  let richness_diff := |pref_richness - sake_richness|
  let avg_diff := (sweetness_diff + acidity_diff + richness_diff) / 3
  let score := 100 - avg_diff * 25
  max score 0

/-- The fixed beginner-friendly category set (line 193). -/
def beginner_categories : List String := ["junmai", "honjozo", "futsushu"]

/-- The fixed advanced category set (line 195). -/
def advanced_categories : List String := ["daiginjo", "junmai_daiginjo", "koshu"]

/-- `RecommendationEngine._calculate_experience_match` (lines 175-204).
Note the Python default: `preferences.get("experience_level", "beginner")`. -/
def _calculate_experience_match (sake : CatalogItem) (preferences : Preferences) : ℚ :=
  let experience_level := preferences.experience_level.getD "beginner"
  let sake_category := sake.category
  if experience_level = "beginner" then
    if sake_category ∈ beginner_categories then 100 else 50
  else if experience_level = "intermediate" then 80
  else if experience_level = "advanced" then
    if sake_category ∈ advanced_categories then 100 else 70
  else 50

/-- `RecommendationEngine._calculate_diversity_score` (lines 206-232). -/
def _calculate_diversity_score (sake : CatalogItem)
    (tasting_history : List TastingRecord) : ℚ :=
  if tasting_history = [] then 100
  else
    let tried_breweries := tasting_history.map TastingRecord.brewery_id
    if ¬ some sake.brewery_id ∈ tried_breweries then 100 else 50

/-- `RecommendationEngine._calculate_score` (lines 102-136): the weighted
sum of the four factor scores, clamped from above at 100. -/
def _calculate_score (sake : CatalogItem) (preferences : Preferences)
    (tasting_history : List TastingRecord) : ℚ :=
  let taste_score := _calculate_taste_match sake preferences
  let experience_score := _calculate_experience_match sake preferences
  let diversity_score := _calculate_diversity_score sake tasting_history
  let popularity_score := sake.rating.getD 3 * 20
  let score := 0 + taste_score * 0.6 + experience_score * 0.2
    + diversity_score * 0.1 + popularity_score * 0.1
  min score 100

/-- `RecommendationEngine._generate_match_reason` (lines 234-272). -/
def _generate_match_reason (sake : CatalogItem) (preferences : Preferences) : String :=
  let reasons : List String := []
  let pref_sweetness := preferences.sweetness.getD 3
  let sake_sweetness := sake.sweetness.getD 3
  let reasons :=
    if |pref_sweetness - sake_sweetness| ≤ 1 then
      reasons ++ [if sake_sweetness ≤ 2 then "辛口でスッキリ"
                  else if 4 ≤ sake_sweetness then "甘口でまろやか"
                  else "バランスの良い味わい"]
    else reasons
  let category := sake.category
  let reasons :=
    if category ∈ ["daiginjo", "junmai_daiginjo"] then reasons ++ ["華やかな香り"]
    else if category = "junmai" then reasons ++ ["お米の旨味"]
    else reasons
  let reasons := if reasons = [] then ["おすすめの一本"] else reasons
  String.intercalate "、" reasons

/-- The output record built for one candidate (lines 71-84). -/
def mkScoredCandidate (sake : CatalogItem) (preferences : Preferences)
    (tasting_history : List TastingRecord) : ScoredCandidate :=
  { sake_id := sake.sake_id
    name := sake.name
    brewery_id := sake.brewery_id
    category := sake.category
    price := sake.price.getD 0
    sweetness := sake.sweetness.getD 3
    acidity := sake.acidity.getD 3
    richness := sake.richness.getD 3
    score := round2 (_calculate_score sake preferences tasting_history)
    match_reason := _generate_match_reason sake preferences }

/-- The descending-by-score order used by
`scored_sake.sort(key=lambda x: x["score"], reverse=True)`. -/
def scoreGE (a b : ScoredCandidate) : Prop := b.score ≤ a.score

instance : DecidableRel scoreGE := fun a b =>
  inferInstanceAs (Decidable (b.score ≤ a.score))

instance : IsTotal ScoredCandidate scoreGE :=
  ⟨fun a b => le_total b.score a.score⟩

instance : IsTrans ScoredCandidate scoreGE :=
  ⟨fun _ _ _ h1 h2 => le_trans h2 h1⟩

/-- `RecommendationEngine.recommend` (lines 30-88): filter the catalog,
score and annotate each candidate, sort descending by score, and return
the `limit`-prefix (Python slice semantics). -/
def recommend (engine : RecommendationEngine) (_user_id : String)
    (preferences : Preferences) (tasting_history : List TastingRecord)
    (limit : ℤ) : List ScoredCandidate :=
  pySliceTo
    (List.insertionSort scoreGE
      ((candidate_sake engine preferences tasting_history).map
        (fun sake => mkScoredCandidate sake preferences tasting_history)))
    limit

/-- The limit extraction of `handler.py` line 94:
`limit = min(body.get("limit", 10), 50)` — no positivity validation. -/
def handler_limit (bodyLimit : Option ℤ) : ℤ :=
  min (bodyLimit.getD 10) 50

/-! Concrete inputs used by witnesses and counterexamples. -/

/-- A beginner-friendly catalog item. -/
def itemJunmai : CatalogItem :=
  ⟨"S001", "Dassai", "B001", "junmai", some 1500, some 2, some 3, some 4, some 4⟩

/-- An advanced-category catalog item. -/
def itemDaiginjo : CatalogItem :=
  ⟨"S002", "Kubota", "B002", "daiginjo", some 3200, some 1, some 2, some 2, some 5⟩

/-- A neutral-taste catalog item with no price or rating. -/
def itemNeutral : CatalogItem :=
  ⟨"S003", "Ozeki", "B003", "futsushu", none, some 3, some 3, some 3, none⟩

/-- A catalog item at taste minimum (1, 1, 1). -/
def itemMinTaste : CatalogItem :=
  ⟨"S004", "Hakutsuru", "B004", "honjozo", some 900, some 1, some 1, some 1, some 2⟩

/-- A neutral preference profile with every optional field absent. -/
def prefsNeutral : Preferences := ⟨some 3, some 3, some 3, none, [], none⟩

/-- A preference profile at taste maximum (5, 5, 5). -/
def prefsMaxTaste : Preferences :=
  ⟨some 5, some 5, some 5, none, [], some "intermediate"⟩

/-- A preference profile with a budget of 1000. -/
def prefsBudget1000 : Preferences :=
  ⟨some 3, some 3, some 3, some 1000, [], some "beginner"⟩

/-- An engine whose sake table holds two items. -/
def engineTwo : RecommendationEngine := ⟨[itemJunmai, itemDaiginjo], [], []⟩

/-- An engine whose sake table is empty. -/
def engineEmptyTable : RecommendationEngine := ⟨[], [], []⟩

/-- An engine with the same sake table as `engineTwo` but different brewery
and tasting tables. -/
def engineTwoAlt : RecommendationEngine :=
  ⟨[itemJunmai, itemDaiginjo], [("B009", "Other")], [⟨some "S999", some "B009"⟩]⟩

/-! General lemmas about the embedded pipeline, shared by the claim
theorems below. -/

/-- The budget filter only removes items. -/
theorem mem_of_mem_filter_budget {budget : Option ℚ} {items : List CatalogItem}
    {s : CatalogItem} (h : s ∈ filter_budget budget items) : s ∈ items := by
  cases budget with
  | none => simpa [filter_budget] using h
  | some b =>
    simp only [filter_budget] at h
    split at h
    · exact h
    · exact List.mem_of_mem_filter h

/-- The category filter only removes items. -/
theorem mem_of_mem_filter_categories {preferred : List String}
    {items : List CatalogItem} {s : CatalogItem}
    (h : s ∈ filter_categories preferred items) : s ∈ items := by
  simp only [filter_categories] at h
  split at h
  · exact h
  · exact List.mem_of_mem_filter h

/-- The history filter only removes items. -/
theorem mem_of_mem_filter_tasted {tasting_history : List TastingRecord}
    {items : List CatalogItem} {s : CatalogItem}
    (h : s ∈ filter_tasted tasting_history items) : s ∈ items := by
  simp only [filter_tasted] at h
  exact List.mem_of_mem_filter h

/-- Surviving the history filter means the item's id is not in the history. -/
theorem not_tasted_of_mem_filter_tasted {tasting_history : List TastingRecord}
    {items : List CatalogItem} {s : CatalogItem}
    (h : s ∈ filter_tasted tasting_history items) :
    ¬ some s.sake_id ∈ tasting_history.map TastingRecord.sake_id := by
  simp only [filter_tasted] at h
  simpa using List.of_mem_filter h

/-- Surviving a nonzero budget filter bounds the item's effective price. -/
theorem price_le_of_mem_filter_budget {b : ℚ} (hb : b ≠ 0)
    {items : List CatalogItem} {s : CatalogItem}
    (h : s ∈ filter_budget (some b) items) : s.price.getD 0 ≤ b := by
  simp only [filter_budget, if_neg hb] at h
  have hp := List.of_mem_filter h
  simp only [decide_eq_true_eq] at hp
  exact hp

/-- Every candidate comes from the engine's sake table. -/
theorem mem_table_of_mem_candidate {engine : RecommendationEngine}
    {preferences : Preferences} {tasting_history : List TastingRecord}
    {s : CatalogItem}
    (h : s ∈ candidate_sake engine preferences tasting_history) :
    s ∈ engine.sake_table := by
  simp only [candidate_sake] at h
  exact mem_of_mem_filter_budget
    (mem_of_mem_filter_categories (mem_of_mem_filter_tasted h))

/-- Every output record of `recommend` is the scored record of some
candidate. -/
theorem mem_recommend {engine : RecommendationEngine} {uid : String}
    {preferences : Preferences} {tasting_history : List TastingRecord}
    {limit : ℤ} {c : ScoredCandidate}
    (hc : c ∈ recommend engine uid preferences tasting_history limit) :
    ∃ s ∈ candidate_sake engine preferences tasting_history,
      c = mkScoredCandidate s preferences tasting_history := by
  simp only [recommend, pySliceTo] at hc
  have h1 : c ∈ List.insertionSort scoreGE
      ((candidate_sake engine preferences tasting_history).map
        (fun sake => mkScoredCandidate sake preferences tasting_history)) := by
    split at hc
    · exact List.take_subset _ _ hc
    · exact List.take_subset _ _ hc
  have h2 := (List.perm_insertionSort scoreGE _).mem_iff.mp h1
  obtain ⟨s, hs, rfl⟩ := List.mem_map.mp h2
  exact ⟨s, hs, rfl⟩

/-- For a nonnegative limit, `recommend` is a `take` of the sorted scored
list. -/
theorem recommend_eq_take {engine : RecommendationEngine} {uid : String}
    {preferences : Preferences} {tasting_history : List TastingRecord}
    {limit : ℤ} (h : 0 ≤ limit) :
    recommend engine uid preferences tasting_history limit
      = (List.insertionSort scoreGE
          ((candidate_sake engine preferences tasting_history).map
            (fun sake => mkScoredCandidate sake preferences tasting_history))).take
          limit.toNat := by
  simp only [recommend, pySliceTo, if_pos h]

/-- Sorting the scored list preserves its length, which is the number of
candidates. -/
theorem length_sorted_scored (engine : RecommendationEngine)
    (preferences : Preferences) (tasting_history : List TastingRecord) :
    (List.insertionSort scoreGE
        ((candidate_sake engine preferences tasting_history).map
          (fun sake => mkScoredCandidate sake preferences tasting_history))).length
      = (candidate_sake engine preferences tasting_history).length := by
  rw [(List.perm_insertionSort scoreGE _).length_eq, List.length_map]

/-- Output length for a nonnegative limit. -/
theorem recommend_length {engine : RecommendationEngine} {uid : String}
    {preferences : Preferences} {tasting_history : List TastingRecord}
    {limit : ℤ} (h : 0 ≤ limit) :
    (recommend engine uid preferences tasting_history limit).length
      = min limit.toNat
          (candidate_sake engine preferences tasting_history).length := by
  rw [recommend_eq_take h, List.length_take, length_sorted_scored]

/-- Output length for a negative limit: Python's negative slice bound
drops the last `-limit` elements. -/
theorem recommend_length_of_neg {engine : RecommendationEngine} {uid : String}
    {preferences : Preferences} {tasting_history : List TastingRecord}
    {limit : ℤ} (h : limit < 0) :
    (recommend engine uid preferences tasting_history limit).length
      = (candidate_sake engine preferences tasting_history).length
          - (-limit).toNat := by
  simp only [recommend, pySliceTo, if_neg (not_le.mpr h), List.length_take,
    length_sorted_scored]
  exact Nat.min_eq_left (Nat.sub_le _ _)

/-- The taste-match factor is nonnegative. -/
theorem taste_match_nonneg (sake : CatalogItem) (preferences : Preferences) :
    0 ≤ _calculate_taste_match sake preferences := by
  simp only [_calculate_taste_match]
  exact le_max_right _ _

/-- The experience-match factor is nonnegative. -/
theorem experience_match_nonneg (sake : CatalogItem) (preferences : Preferences) :
    0 ≤ _calculate_experience_match sake preferences := by
  simp only [_calculate_experience_match]
  split_ifs <;> norm_num

/-- The diversity factor is nonnegative. -/
theorem diversity_nonneg (sake : CatalogItem)
    (tasting_history : List TastingRecord) :
    0 ≤ _calculate_diversity_score sake tasting_history := by
  simp only [_calculate_diversity_score]
  split_ifs <;> norm_num

/-- The composite score never exceeds 100. -/
theorem calculate_score_le_100 (sake : CatalogItem) (preferences : Preferences)
    (tasting_history : List TastingRecord) :
    _calculate_score sake preferences tasting_history ≤ 100 := by
  simp only [_calculate_score]
  exact min_le_right _ _

/-- With a nonnegative (defaulted) rating, the composite score is
nonnegative. -/
theorem calculate_score_nonneg {sake : CatalogItem} (preferences : Preferences)
    (tasting_history : List TastingRecord) (hr : 0 ≤ sake.rating.getD 3) :
    0 ≤ _calculate_score sake preferences tasting_history := by
  have h1 := taste_match_nonneg sake preferences
  have h2 := experience_match_nonneg sake preferences
  have h3 := diversity_nonneg sake tasting_history
  simp only [_calculate_score]
  apply le_min _ (by norm_num)
  nlinarith

/-- Round-half-even never rounds below the floor. -/
theorem roundHalfEven_ge_floor (q : ℚ) : ⌊q⌋ ≤ roundHalfEven q := by
  simp only [roundHalfEven]
  split_ifs <;> omega

/-- Round-half-even never rounds above the ceiling. -/
theorem roundHalfEven_le_ceil (q : ℚ) : roundHalfEven q ≤ ⌈q⌉ := by
  have hstep : ¬ q - ⌊q⌋ < 1 / 2 → ⌊q⌋ + 1 ≤ ⌈q⌉ := by
    intro h
    push_neg at h
    have hlt : (⌊q⌋ : ℚ) < q := by linarith
    exact Int.lt_ceil.mpr hlt
  simp only [roundHalfEven]
  split_ifs with h1 h2 h3
  · exact Int.floor_le_ceil q
  · exact hstep h1
  · exact Int.floor_le_ceil q
  · exact hstep h1

/-- Rounding to two decimals keeps nonnegative values nonnegative. -/
theorem round2_nonneg {q : ℚ} (h : 0 ≤ q) : 0 ≤ round2 q := by
  have h0 : (0 : ℤ) ≤ ⌊q * 100⌋ := Int.le_floor.mpr (by push_cast; positivity)
  have h1 : (0 : ℤ) ≤ roundHalfEven (q * 100) :=
    le_trans h0 (roundHalfEven_ge_floor (q * 100))
  simp only [round2]
  have : (0 : ℚ) ≤ (roundHalfEven (q * 100) : ℚ) := by exact_mod_cast h1
  positivity

/-- Rounding to two decimals keeps values at most 100 at most 100. -/
theorem round2_le_100 {q : ℚ} (h : q ≤ 100) : round2 q ≤ 100 := by
  have h0 : ⌈q * 100⌉ ≤ 10000 := Int.ceil_le.mpr (by push_cast; linarith)
  have h1 : roundHalfEven (q * 100) ≤ 10000 :=
    le_trans (roundHalfEven_le_ceil (q * 100)) h0
  have h2 : (roundHalfEven (q * 100) : ℚ) ≤ 10000 := by exact_mod_cast h1
  simp only [round2]
  linarith

/-! Claim theorems. -/

/-- C1: for every preference profile, catalog, history and positive
integer limit, `recommend` returns a list whose length is
`min(limit, number of candidates surviving the budget/category/history
filters)`, ordered by score non-increasing. -/
theorem recommend_length_and_sorted (engine : RecommendationEngine)
    (uid : String) (preferences : Preferences)
    (tasting_history : List TastingRecord) (limit : ℤ) (hlim : 0 < limit) :
    (recommend engine uid preferences tasting_history limit).length
      = min limit.toNat (candidate_sake engine preferences tasting_history).length
    ∧ List.Sorted scoreGE (recommend engine uid preferences tasting_history limit) := by
  have hrw : recommend engine uid preferences tasting_history limit
      = (List.insertionSort scoreGE
          ((candidate_sake engine preferences tasting_history).map
            (fun sake => mkScoredCandidate sake preferences tasting_history))).take
          limit.toNat := by
    simp only [recommend, pySliceTo, if_pos hlim.le]
  constructor
  · rw [hrw, List.length_take, (List.perm_insertionSort scoreGE _).length_eq,
      List.length_map]
  · rw [hrw]
    exact (List.sorted_insertionSort scoreGE _).sublist (List.take_sublist _ _)

/-- Witness for C1 at a concrete engine, profile and limit. -/
theorem recommend_length_and_sorted_witness :
    (0 : ℤ) < 1
    ∧ ((recommend engineTwo "u" prefsNeutral [] 1).length
        = min (1 : ℤ).toNat (candidate_sake engineTwo prefsNeutral []).length
      ∧ List.Sorted scoreGE (recommend engineTwo "u" prefsNeutral [] 1)) :=
  ⟨by norm_num,
   recommend_length_and_sorted engineTwo "u" prefsNeutral [] 1 (by norm_num)⟩

/-- C2: when every catalog item's (defaulted) rating lies in `[0, 5]`,
every returned record's `score` field lies in `[0, 100]`. -/
theorem recommend_score_bounds (engine : RecommendationEngine) (uid : String)
    (preferences : Preferences) (tasting_history : List TastingRecord)
    (limit : ℤ)
    (hrating : ∀ s ∈ engine.sake_table,
      0 ≤ s.rating.getD 3 ∧ s.rating.getD 3 ≤ 5) :
    ∀ c ∈ recommend engine uid preferences tasting_history limit,
      0 ≤ c.score ∧ c.score ≤ 100 := by
  intro c hc
  obtain ⟨s, hs, rfl⟩ := mem_recommend hc
  have h0 := (hrating s (mem_table_of_mem_candidate hs)).1
  have hscore : (mkScoredCandidate s preferences tasting_history).score
      = round2 (_calculate_score s preferences tasting_history) := rfl
  rw [hscore]
  exact ⟨round2_nonneg (calculate_score_nonneg preferences tasting_history h0),
    round2_le_100 (calculate_score_le_100 s preferences tasting_history)⟩

/-- Witness for C2 at a concrete engine with in-range ratings. -/
theorem recommend_score_bounds_witness :
    (∀ s ∈ engineTwo.sake_table, 0 ≤ s.rating.getD 3 ∧ s.rating.getD 3 ≤ 5)
    ∧ ∀ c ∈ recommend engineTwo "u" prefsNeutral [] 10,
        0 ≤ c.score ∧ c.score ≤ 100 :=
  ⟨by decide,
   recommend_score_bounds engineTwo "u" prefsNeutral [] 10 (by decide)⟩

/-- C3: the composite score is the weighted factor sum
Taste×0.6 + Experience×0.2 + Diversity×0.1 + Popularity×0.1 (with
Popularity = rating×20, rating defaulting to 3) clamped to at most 100,
and the `score` written into the output record is that value rounded to
two decimal places. -/
theorem calculate_score_spec (sake : CatalogItem) (preferences : Preferences)
    (tasting_history : List TastingRecord) :
    _calculate_score sake preferences tasting_history
      = min (_calculate_taste_match sake preferences * 0.6
          + _calculate_experience_match sake preferences * 0.2
          + _calculate_diversity_score sake tasting_history * 0.1
          + (sake.rating.getD 3 * 20) * 0.1) 100
    ∧ (mkScoredCandidate sake preferences tasting_history).score
      = round2 (_calculate_score sake preferences tasting_history) := by
  constructor
  · simp only [_calculate_score]
    congr 1
    ring
  · rfl

/-- C4: the taste-match factor is
`max 0 (100 - avg_diff * 25)` over the defaulted taste triples; identical
triples score 100 and maximally divergent triples score 0. -/
theorem taste_match_spec (sake : CatalogItem) (preferences : Preferences) :
    _calculate_taste_match sake preferences
      = max 0 (100 - (|preferences.sweetness.getD 3 - sake.sweetness.getD 3|
          + |preferences.acidity.getD 3 - sake.acidity.getD 3|
          + |preferences.richness.getD 3 - sake.richness.getD 3|) / 3 * 25)
    ∧ (sake.sweetness.getD 3 = preferences.sweetness.getD 3
        → sake.acidity.getD 3 = preferences.acidity.getD 3
        → sake.richness.getD 3 = preferences.richness.getD 3
        → _calculate_taste_match sake preferences = 100)
    ∧ (|preferences.sweetness.getD 3 - sake.sweetness.getD 3| = 4
        → |preferences.acidity.getD 3 - sake.acidity.getD 3| = 4
        → |preferences.richness.getD 3 - sake.richness.getD 3| = 4
        → _calculate_taste_match sake preferences = 0) := by
  refine ⟨?_, ?_, ?_⟩
  · simp only [_calculate_taste_match]
    exact max_comm _ _
  · intro h1 h2 h3
    simp only [_calculate_taste_match, h1, h2, h3, sub_self, abs_zero]
    norm_num
  · intro h1 h2 h3
    simp only [_calculate_taste_match, h1, h2, h3]
    norm_num

/-- Witness for C4: a perfect-match pair scores 100 and a maximally
divergent pair scores 0. -/
theorem taste_match_spec_witness :
    _calculate_taste_match itemNeutral prefsNeutral = 100
    ∧ _calculate_taste_match itemMinTaste prefsMaxTaste = 0 :=
  ⟨(taste_match_spec itemNeutral prefsNeutral).2.1 (by decide) (by decide)
      (by decide),
   (taste_match_spec itemMinTaste prefsMaxTaste).2.2
      (by norm_num [prefsMaxTaste, itemMinTaste])
      (by norm_num [prefsMaxTaste, itemMinTaste])
      (by norm_num [prefsMaxTaste, itemMinTaste])⟩

/-- C5: when the profile's budget is set to a positive amount, no returned
record has `price` above the budget. -/
theorem recommend_budget_bound (engine : RecommendationEngine) (uid : String)
    (preferences : Preferences) (tasting_history : List TastingRecord)
    (limit : ℤ) (b : ℚ) (hb : preferences.budget = some b) (hpos : 0 < b) :
    ∀ c ∈ recommend engine uid preferences tasting_history limit,
      c.price ≤ b := by
  intro c hc
  obtain ⟨s, hs, rfl⟩ := mem_recommend hc
  simp only [candidate_sake] at hs
  have h1 : s ∈ filter_budget preferences.budget (_get_all_sake engine) :=
    mem_of_mem_filter_categories (mem_of_mem_filter_tasted hs)
  rw [hb] at h1
  have h2 := price_le_of_mem_filter_budget (ne_of_gt hpos) h1
  simpa [mkScoredCandidate] using h2

/-- Witness for C5 at a concrete budgeted profile. -/
theorem recommend_budget_bound_witness :
    prefsBudget1000.budget = some 1000
    ∧ (0 : ℚ) < 1000
    ∧ ∀ c ∈ recommend engineTwo "u" prefsBudget1000 [] 10, c.price ≤ 1000 :=
  ⟨rfl, by norm_num,
   recommend_budget_bound engineTwo "u" prefsBudget1000 [] 10 1000 rfl
     (by norm_num)⟩

/-- C6: no sake id from the tasting history appears in the output, and a
history covering every catalog item's id forces an empty output. -/
theorem recommend_history_exclusion (engine : RecommendationEngine)
    (uid : String) (preferences : Preferences)
    (tasting_history : List TastingRecord) (limit : ℤ) :
    (∀ c ∈ recommend engine uid preferences tasting_history limit,
        ¬ some c.sake_id ∈ tasting_history.map TastingRecord.sake_id)
    ∧ ((∀ s ∈ engine.sake_table,
          some s.sake_id ∈ tasting_history.map TastingRecord.sake_id)
        → recommend engine uid preferences tasting_history limit = []) := by
  constructor
  · intro c hc
    obtain ⟨s, hs, rfl⟩ := mem_recommend hc
    simp only [candidate_sake] at hs
    have h1 := not_tasted_of_mem_filter_tasted hs
    simpa [mkScoredCandidate] using h1
  · intro hall
    have hcand : candidate_sake engine preferences tasting_history = [] := by
      simp only [candidate_sake, filter_tasted]
      rw [List.filter_eq_nil_iff]
      intro s hs
      have hmem : s ∈ engine.sake_table :=
        mem_of_mem_filter_budget (mem_of_mem_filter_categories hs)
      simp [hall s hmem]
    simp [recommend, hcand, pySliceTo, List.insertionSort]

/-- Witness for C6: a history covering the whole (one-item) catalog yields
the empty recommendation list. -/
theorem recommend_history_exclusion_witness :
    recommend ⟨[itemJunmai], [], []⟩ "u" prefsNeutral
      [⟨some "S001", some "B001"⟩] 10 = [] :=
  (recommend_history_exclusion ⟨[itemJunmai], [], []⟩ "u" prefsNeutral
    [⟨some "S001", some "B001"⟩] 10).2 (by decide)

/-- C7 counterexample: with no `experience_level` in the profile and a
beginner-friendly category ("junmai"), the experience-match score is 100,
not the claimed defensive default of 50 — the code defaults an absent
level to "beginner". -/
theorem experience_match_absent_level_counterexample :
    _calculate_experience_match itemJunmai prefsNeutral ≠ 50 := by decide

/-- C7 amended: an absent `experience_level` is defaulted to "beginner",
so the experience-match score is 100 for a beginner-friendly category and
50 otherwise. -/
theorem experience_match_absent_level (sake : CatalogItem)
    (preferences : Preferences) (h : preferences.experience_level = none) :
    _calculate_experience_match sake preferences
      = if sake.category ∈ beginner_categories then 100 else 50 := by
  simp [_calculate_experience_match, h]

/-- Witness for the amended C7 at a concrete profile without a level. -/
theorem experience_match_absent_level_witness :
    prefsNeutral.experience_level = none
    ∧ _calculate_experience_match itemJunmai prefsNeutral
        = if itemJunmai.category ∈ beginner_categories then 100 else 50 :=
  ⟨rfl, experience_match_absent_level itemJunmai prefsNeutral rfl⟩

/-- C8: evaluation at the failing input `limit = -1` — the handler keeps
the non-positive limit (it only clamps from above with `min(limit, 50)`)
and `recommend` silently applies Python slice semantics, returning a
one-element result list (the last-ranked of the two candidates is
dropped) instead of raising a validation error. -/
theorem limit_not_validated :
    handler_limit (some (-1)) = -1
    ∧ (recommend engineTwo "test_user" prefsNeutral [] (-1)).length = 1 := by
  constructor
  · decide
  · rw [recommend_length_of_neg (by norm_num)]
    rfl

/-- C9 counterexample: two `recommend` calls with identical supplied
arguments (user, preferences, history, limit) but different sake-table
contents return different outputs — the catalog is fetched from the
injected store inside the engine, not supplied by the caller. -/
theorem recommend_depends_on_store :
    recommend engineTwo "u" prefsNeutral [] 10
      ≠ recommend engineEmptyTable "u" prefsNeutral [] 10 := by
  intro heq
  have h1 : (recommend engineTwo "u" prefsNeutral [] 10).length = 2 := by
    rw [recommend_length (by norm_num)]
    rfl
  have h2 : (recommend engineEmptyTable "u" prefsNeutral [] 10).length = 0 := by
    rw [recommend_length (by norm_num)]
    rfl
  rw [heq, h2] at h1
  exact absurd h1 (by norm_num)

/-- C9 amended: `recommend` is a pure function of the sake-table contents
together with preferences, history and limit; it ignores the user id and
the other injected tables, so two invocations agreeing on the sake table
and the supplied arguments coincide. -/
theorem recommend_function_of_table (e1 e2 : RecommendationEngine)
    (u1 u2 : String) (preferences : Preferences)
    (tasting_history : List TastingRecord) (limit : ℤ)
    (h : e1.sake_table = e2.sake_table) :
    recommend e1 u1 preferences tasting_history limit
      = recommend e2 u2 preferences tasting_history limit := by
  simp only [recommend, candidate_sake, _get_all_sake, h]

/-- Witness for the amended C9: equal sake tables, different users and
different brewery/tasting tables give equal outputs. -/
theorem recommend_function_of_table_witness :
    engineTwo.sake_table = engineTwoAlt.sake_table
    ∧ recommend engineTwo "alice" prefsNeutral [] 10
        = recommend engineTwoAlt "bob" prefsNeutral [] 10 :=
  ⟨rfl, recommend_function_of_table engineTwo engineTwoAlt "alice" "bob"
    prefsNeutral [] 10 rfl⟩

/-- C10: a budget of 0 (like an absent budget) disables the budget filter
entirely — the candidate set is exactly the catalog after only the
category and history filters, so items of every price remain candidates. -/
theorem budget_falsy_disables_filter (engine : RecommendationEngine)
    (preferences : Preferences) (tasting_history : List TastingRecord) :
    candidate_sake engine { preferences with budget := some 0 } tasting_history
      = filter_tasted tasting_history
          (filter_categories preferences.categories (_get_all_sake engine))
    ∧ candidate_sake engine { preferences with budget := none } tasting_history
      = filter_tasted tasting_history
          (filter_categories preferences.categories (_get_all_sake engine)) := by
  constructor <;> simp [candidate_sake, filter_budget]

end SakeSensei
